import Mathlib

/-!
Shallow embedding of a DirectComposition + wgpu windowed host (`src/main.rs`).

The program is a single-threaded, message-driven window controller:

* `Window` holds the native window handle, an optional D3D11 device (the
  device-stack reference), an optional DirectComposition desktop device and
  composition target, and an optional wgpu `SurfaceState`.
* `Window.create_device_resources` builds the whole stack (3D device, 2D
  device, desktop device, target, visuals, wgpu surface state, commit).
* `Window.paint_handler` checks device liveness (`GetDeviceRemovedReason`)
  or lazily builds the stack, then clears and presents one frame.
* `Window.message_handler` dispatches `WM_PAINT` / `WM_SIZE` / `WM_DESTROY`,
  catching error results of the paint path by clearing the device reference.

All fallible native / wgpu calls are modelled by an `Env` record of injected
outcomes, so every execution of the handlers is a pure function of the window
state, the message and the environment.  Rust panics (from `expect`,
`unwrap`, `debug_assert!` and out-of-bounds indexing) are modelled separately
from `windows::core::Result` errors, because only the latter are caught by
`unwrap_or_else` at the dispatch boundary.
-/

namespace WgpuDcomp

/-- wgpu texture formats (only the identity of `Bgra8UnormSrgb` matters for
format selection; every other format is represented abstractly). -/
inductive TextureFormat where
  | Bgra8Unorm
  | Bgra8UnormSrgb
  | Rgba8Unorm
  | Rgba8UnormSrgb
  | otherFormat (code : Nat)
deriving DecidableEq, Repr

/-- wgpu composite alpha modes.  `Opaq` stands for wgpu's opaque mode (the
name is shortened in the model). -/
inductive CompositeAlphaMode where
  | Auto
  | Opaq
  | PreMultiplied
  | PostMultiplied
  | Inherit
deriving DecidableEq, Repr

/-- wgpu present modes. -/
inductive PresentMode where
  | AutoVsync
  | AutoNoVsync
  | Fifo
  | Immediate
  | Mailbox
deriving DecidableEq, Repr

/-- Texture-usage bitflags, as in wgpu (`RENDER_ATTACHMENT = 1 <<< 4`). -/
def RENDER_ATTACHMENT : Nat := 16

/-- The surface capabilities reported by `surface.get_capabilities(&adapter)`. -/
structure SurfaceCapabilities where
  formats : List TextureFormat
  alpha_modes : List CompositeAlphaMode
deriving DecidableEq, Repr

/-- `wgpu::SurfaceConfiguration` (src/main.rs lines 271-280). -/
structure SurfaceConfiguration where
  usage : Nat
  format : TextureFormat
  width : Nat
  height : Nat
  present_mode : PresentMode
  desired_maximum_frame_latency : Nat
  alpha_mode : CompositeAlphaMode
  view_formats : List TextureFormat
deriving DecidableEq, Repr

/-- `SurfaceState` (src/main.rs lines 216-222).  The opaque `Device`/`Queue`
handles carry no observable state; the `surface` handle is modelled by the
configuration most recently applied to it via `surface.configure`. -/
structure SurfaceState where
  surface_config : SurfaceConfiguration
  format : TextureFormat
  surface : SurfaceConfiguration
deriving DecidableEq, Repr

/-- Reasons the Rust code can panic (from `expect`, `unwrap`,
`debug_assert!` and indexing); a panic is NOT a `windows::core::Result`
error and is not caught by `unwrap_or_else` in `message_handler`. -/
inductive PanicReason where
  | assertDeviceSome
  | surfaceCreateFailed
  | adapterRequestFailed
  | deviceRequestFailed
  | formatUnsupported
  | alphaModesEmpty
  | acquireFailed
  | unwrapNoSurfaceState
deriving DecidableEq, Repr

/-- Outcome of a fallible stretch of code: success, a propagated
`windows::core::Result` error (`?`), or a Rust panic. -/
inductive PaintStatus where
  | ok
  | error
  | panicked (r : PanicReason)
deriving DecidableEq, Repr

/-- The `Window` struct (src/main.rs lines 25-32).  `hwnd` is an opaque
handle; the process-wide `wgpu_instance` carries no observable state and is
omitted.  The D3D11 device, desktop device and composition target are opaque
handles, so their options carry `Unit`. -/
structure Window where
  hwnd : Nat
  device : Option Unit
  desktop : Option Unit
  target : Option Unit
  wgpu_state : Option SurfaceState
deriving DecidableEq, Repr

/-- `Window::new` (src/main.rs lines 35-46). -/
def Window.new : Window :=
  { hwnd := 0, device := none, desktop := none, target := none,
    wgpu_state := none }

/-- Injected outcomes of every fallible native / wgpu call reachable from the
paint path, plus the parameters the environment supplies (client rectangle,
surface capabilities, whether this is a debug build). -/
structure Env where
  getDeviceRemovedReasonOk : Bool
  create_device_3d_ok : Bool
  create_device_2d_ok : Bool
  dcompositionCreateDevice2Ok : Bool
  createTargetForHwndOk : Bool
  createRootVisualOk : Bool
  setRootOk : Bool
  createWgpuVisualOk : Bool
  addVisualOk : Bool
  getClientRectOk : Bool
  clientWidth : Nat
  clientHeight : Nat
  createSurfaceOk : Bool
  requestAdapterOk : Bool
  requestDeviceOk : Bool
  caps : SurfaceCapabilities
  commitOk : Bool
  getCurrentTextureOk : Bool
  validateRectOk : Bool
  debugAssertions : Bool
deriving DecidableEq, Repr

/-- `loword` (src/main.rs lines 363-366): `(x & 0xffff) as u16`, with the
cast to `u16` modelled by `% 2 ^ 16`. -/
def loword (x : Nat) : Nat := (x &&& 0xffff) % 2 ^ 16

/-- `hiword` (src/main.rs lines 368-371): `((x >> 16) & 0xffff) as u16`. -/
def hiword (x : Nat) : Nat := ((x >>> 16) &&& 0xffff) % 2 ^ 16

/-- `SurfaceState::new` (src/main.rs lines 225-291).  Every `expect` is a
panic, returned as `.error r` here and converted to `PaintStatus.panicked r`
by the caller.  Format selection uses `find` over the reported formats and
panics if the fixed `Bgra8UnormSrgb` format is absent; the alpha mode is
`alpha_modes[0]`, a panicking index when the list is empty. -/
def SurfaceState.new (env : Env) (width height : Nat) :
    Except PanicReason SurfaceState :=
  if !env.createSurfaceOk then .error .surfaceCreateFailed
  else if !env.requestAdapterOk then .error .adapterRequestFailed
  else if !env.requestDeviceOk then .error .deviceRequestFailed
  else
    match env.caps.formats.find? (fun d => d == TextureFormat.Bgra8UnormSrgb) with
    | none => .error .formatUnsupported
    | some swapchain_format =>
      match env.caps.alpha_modes with
      | [] => .error .alphaModesEmpty
      | a :: _ =>
        let surface_config : SurfaceConfiguration :=
          { usage := RENDER_ATTACHMENT
            format := swapchain_format
            width := width
            height := height
            present_mode := .AutoVsync
            desired_maximum_frame_latency := 0
            alpha_mode := a
            view_formats := [] }
        .ok { surface_config := surface_config
              format := TextureFormat.Bgra8UnormSrgb
              surface := surface_config }

/-- Result of `SurfaceState::clear`: its status and, when a texture was
acquired, the dimensions at which the frame was rendered and presented. -/
structure ClearResult where
  status : PaintStatus
  presentedAt : Option (Nat × Nat)
deriving DecidableEq, Repr

/-- `SurfaceState::clear` (src/main.rs lines 293-336).  `get_current_texture`
failure hits `expect("failed to acquire texture")`, a panic.  On success the
view creation, render pass, submit and present are infallible, and the frame
is produced at the surface's currently configured size. -/
def SurfaceState.clear (env : Env) (st : SurfaceState) : ClearResult :=
  if env.getCurrentTextureOk then
    { status := .ok, presentedAt := some (st.surface.width, st.surface.height) }
  else
    { status := .panicked .acquireFailed, presentedAt := none }

/-- Result of `create_device_resources`: the (possibly partially mutated)
window, the status, and a trace of how many composition targets are bound to
the window handle, snapshotted at function entry and after every statement
that can change that number (`self.target = None`, `CreateTargetForHwnd`,
the drop of the local `target` on an early error return, and the final
`self.target = Some(target)` hand-off, which keeps the count unchanged). -/
structure CreateResult where
  window : Window
  status : PaintStatus
  boundTargets : List Nat
deriving DecidableEq, Repr

/-- Number of composition targets bound to the window handle at entry to
`create_device_resources`: one when the window still holds a target. -/
def initTargets (w : Window) : Nat :=
  if w.target.isSome then 1 else 0

/-- `Window::create_device_resources` (src/main.rs lines 48-87), statement by
statement: `debug_assert!(self.device.is_none())`; `create_device_3d`;
`create_device_2d`; `self.device = Some(device_3d)`;
`DCompositionCreateDevice2`; `self.target = None` (releasing any previous
target before `CreateTargetForHwnd` finds the HWND occupied);
`CreateTargetForHwnd`; `CreateVisual` (root); `target.SetRoot`;
`self.target = Some(target)`; `CreateVisual` (wgpu); `root.AddVisual`;
`GetClientRect`; `SurfaceState::new` at the client size (panics propagate);
`self.wgpu_state.replace(state)`; `desktop.Commit`;
`self.desktop = Some(desktop)`.  The Rust locals (the window after
`self.device = Some(..)`, after `self.target = None`, after
`self.target = Some(target)`, after `self.wgpu_state.replace(state)`) are
inlined as explicit record updates of `w` at each return site. -/
def Window.create_device_resources (env : Env) (w : Window) : CreateResult :=
  if env.debugAssertions && w.device.isSome then
    { window := w, status := .panicked .assertDeviceSome,
      boundTargets := [initTargets w] }
  else if !env.create_device_3d_ok then
    { window := w, status := .error, boundTargets := [initTargets w] }
  else if !env.create_device_2d_ok then
    { window := w, status := .error, boundTargets := [initTargets w] }
  else if !env.dcompositionCreateDevice2Ok then
    { window := { w with device := some () }, status := .error,
      boundTargets := [initTargets w] }
  else if !env.createTargetForHwndOk then
    { window := { w with device := some (), target := none }, status := .error,
      boundTargets := [initTargets w, 0] }
  else if !env.createRootVisualOk then
    { window := { w with device := some (), target := none }, status := .error,
      boundTargets := [initTargets w, 0, 1, 0] }
  else if !env.setRootOk then
    { window := { w with device := some (), target := none }, status := .error,
      boundTargets := [initTargets w, 0, 1, 0] }
  else if !env.createWgpuVisualOk then
    { window := { w with device := some (), target := some () }, status := .error,
      boundTargets := [initTargets w, 0, 1, 1] }
  else if !env.addVisualOk then
    { window := { w with device := some (), target := some () }, status := .error,
      boundTargets := [initTargets w, 0, 1, 1] }
  else if !env.getClientRectOk then
    { window := { w with device := some (), target := some () }, status := .error,
      boundTargets := [initTargets w, 0, 1, 1] }
  else
    match SurfaceState.new env env.clientWidth env.clientHeight with
    | .error r =>
      { window := { w with device := some (), target := some () },
        status := .panicked r, boundTargets := [initTargets w, 0, 1, 1] }
    | .ok state =>
      if !env.commitOk then
        { window :=
            { w with
                device := some ()
                target := some ()
                wgpu_state := some state }
          status := .error
          boundTargets := [initTargets w, 0, 1, 1] }
      else
        { window :=
            { w with
                device := some ()
                desktop := some ()
                target := some ()
                wgpu_state := some state }
          status := .ok
          boundTargets := [initTargets w, 0, 1, 1] }

/-- Result of `paint_handler`: the mutated window, the status seen by the
caller, whether `create_device_resources` was invoked, and the dimensions at
which a frame was rendered (if one was). -/
structure PaintResult where
  window : Window
  status : PaintStatus
  calledCreate : Bool
  presentedAt : Option (Nat × Nat)
deriving DecidableEq, Repr

/-- Tail of `paint_handler` (src/main.rs lines 103-105), shared by both
branches: `self.wgpu_state.as_ref().unwrap().clear()` followed by
`ValidateRect(..).ok()?`.  The `unwrap` on a missing surface state is a
panic. -/
def Window.paint_present (env : Env) (w : Window) (calledCreate : Bool) :
    PaintResult :=
  match w.wgpu_state with
  | none =>
    { window := w, status := .panicked .unwrapNoSurfaceState,
      calledCreate := calledCreate, presentedAt := none }
  | some st =>
    let c := st.clear env
    match c.status with
    | .ok =>
      if env.validateRectOk then
        { window := w, status := .ok, calledCreate := calledCreate,
          presentedAt := c.presentedAt }
      else
        { window := w, status := .error, calledCreate := calledCreate,
          presentedAt := c.presentedAt }
    | s =>
      { window := w, status := s, calledCreate := calledCreate,
        presentedAt := c.presentedAt }

/-- `Window::paint_handler` (src/main.rs lines 89-109): if a device is held,
query `GetDeviceRemovedReason` (its failure propagates via `?`); otherwise
invoke `create_device_resources` (its failure propagates via `?`); then
unwrap the surface state, clear/present one frame, and validate the window
rectangle. -/
def Window.paint_handler (env : Env) (w : Window) : PaintResult :=
  match w.device with
  | some _ =>
    if env.getDeviceRemovedReasonOk then
      Window.paint_present env w false
    else
      { window := w, status := .error, calledCreate := false,
        presentedAt := none }
  | none =>
    let c := w.create_device_resources env
    match c.status with
    | .ok => Window.paint_present env c.window true
    | s =>
      { window := c.window, status := s, calledCreate := true,
        presentedAt := none }

/-- `Window::size_handler` (src/main.rs lines 111-122): extract the packed
width/height from `lparam.0 as u32` (modelled by `% 2 ^ 32`), and if a
surface state exists, update the configuration's width/height and reapply the
configuration to the surface; otherwise do nothing. -/
def Window.size_handler (w : Window) (lparam : Nat) : Window :=
  let wd := loword (lparam % 2 ^ 32)
  let h := hiword (lparam % 2 ^ 32)
  match w.wgpu_state with
  | none => w
  | some st =>
    let cfg : SurfaceConfiguration :=
      { st.surface_config with width := wd, height := h }
    { w with wgpu_state := some { st with surface_config := cfg, surface := cfg } }

/-- The window messages routed by `message_handler`; `otherMsg` covers the
`DefWindowProcA` fall-through. -/
inductive Msg where
  | WM_PAINT
  | WM_SIZE (lparam : Nat)
  | WM_DESTROY
  | otherMsg (m : Nat)
deriving DecidableEq, Repr

/-- How a dispatched message returns to the window system: a normal
`LRESULT`, the `DefWindowProcA` default result, or not at all because a Rust
panic aborted the process. -/
inductive MsgOutcome where
  | lresult (v : Int)
  | defaultProc
  | panicked (r : PanicReason)
deriving DecidableEq, Repr

/-- Whether a message dispatch aborted in a panic. -/
def MsgOutcome.isPanic : MsgOutcome → Bool
  | .panicked _ => true
  | _ => false

/-- Result of one `message_handler` dispatch. -/
structure MsgResult where
  window : Window
  outcome : MsgOutcome
deriving DecidableEq, Repr

/-- `Window::message_handler` (src/main.rs lines 124-143): on `WM_PAINT`, a
`Result` error from `paint_handler` is caught by `unwrap_or_else`, which
clears the device reference; the handler then returns `LRESULT(0)`.  A panic
inside the paint path is NOT caught.  `WM_SIZE` runs `size_handler`,
`WM_DESTROY` posts quit, and anything else goes to `DefWindowProcA`. -/
def Window.message_handler (env : Env) (w : Window) (msg : Msg) : MsgResult :=
  match msg with
  | .WM_PAINT =>
    let p := w.paint_handler env
    match p.status with
    | .ok => { window := p.window, outcome := .lresult 0 }
    | .error => { window := { p.window with device := none }, outcome := .lresult 0 }
    | .panicked r => { window := p.window, outcome := .panicked r }
  | .WM_SIZE lp => { window := w.size_handler lp, outcome := .lresult 0 }
  | .WM_DESTROY => { window := w, outcome := .lresult 0 }
  | .otherMsg _ => { window := w, outcome := .defaultProc }

/-- The state-machine invariant behind the paint path's `unwrap`: whenever
the device-stack reference is present, the surface state is present too. -/
def deviceImpliesSurface (w : Window) : Prop :=
  w.device.isSome → w.wgpu_state.isSome

/-- A sample surface configuration, as produced for an 800 by 600 window. -/
def sampleConfig : SurfaceConfiguration :=
  { usage := RENDER_ATTACHMENT, format := .Bgra8UnormSrgb, width := 800,
    height := 600, present_mode := .AutoVsync,
    desired_maximum_frame_latency := 0, alpha_mode := .Auto,
    view_formats := [] }

/-- A fully built surface state at 800 by 600. -/
def sampleState : SurfaceState :=
  { surface_config := sampleConfig, format := .Bgra8UnormSrgb,
    surface := sampleConfig }

/-- A window after a fully successful resource build. -/
def readyWindow : Window :=
  { hwnd := 1, device := some (), desktop := some (), target := some (),
    wgpu_state := some sampleState }

/-- An environment in which every native and wgpu call succeeds. -/
def allOkEnv : Env :=
  { getDeviceRemovedReasonOk := true
    create_device_3d_ok := true
    create_device_2d_ok := true
    dcompositionCreateDevice2Ok := true
    createTargetForHwndOk := true
    createRootVisualOk := true
    setRootOk := true
    createWgpuVisualOk := true
    addVisualOk := true
    getClientRectOk := true
    clientWidth := 800
    clientHeight := 600
    createSurfaceOk := true
    requestAdapterOk := true
    requestDeviceOk := true
    caps := { formats := [.Bgra8Unorm, .Bgra8UnormSrgb],
              alpha_modes := [.Auto, .Opaq] }
    commitOk := true
    getCurrentTextureOk := true
    validateRectOk := true
    debugAssertions := true }

/-- An environment in which only the device-liveness query fails. -/
def envFail : Env := { allOkEnv with getDeviceRemovedReasonOk := false }

/-- An environment in which only the texture acquire fails. -/
def acquireFailEnv : Env := { allOkEnv with getCurrentTextureOk := false }

/-- The built window after a resize to 400 by 300 (packed as a word pair). -/
def resizedWindow : Window := readyWindow.size_handler (400 + 300 * 2 ^ 16)

/-- The built window after a resize to 0 by 0. -/
def zeroWindow : Window := readyWindow.size_handler 0

/-- The surface state held by `zeroWindow`. -/
def zeroState : SurfaceState :=
  { surface_config := { sampleConfig with width := 0, height := 0 }
    format := .Bgra8UnormSrgb
    surface := { sampleConfig with width := 0, height := 0 } }

/-! ## Helper lemmas -/

theorem loword_eq_mod (x : Nat) : loword x = x % 2 ^ 16 := by
  unfold loword
  have h : x &&& 0xffff = x % 2 ^ 16 := by
    have := Nat.and_pow_two_sub_one_eq_mod x 16
    norm_num at this ⊢
    exact this
  rw [h]
  omega

theorem hiword_eq_div_mod (x : Nat) : hiword x = (x / 2 ^ 16) % 2 ^ 16 := by
  unfold hiword
  have hs : x >>> 16 = x / 2 ^ 16 := Nat.shiftRight_eq_div_pow x 16
  have h : (x / 2 ^ 16) &&& 0xffff = (x / 2 ^ 16) % 2 ^ 16 := by
    have := Nat.and_pow_two_sub_one_eq_mod (x / 2 ^ 16) 16
    norm_num at this ⊢
    exact this
  rw [hs, h]
  omega

theorem size_handler_of_none (w : Window) (p : Nat) (h : w.wgpu_state = none) :
    w.size_handler p = w := by
  simp [Window.size_handler, h]

theorem size_handler_of_some (w : Window) (st : SurfaceState) (p : Nat)
    (h : w.wgpu_state = some st) :
    w.size_handler p =
      { w with wgpu_state := some { st with
          surface_config := { st.surface_config with
            width := loword (p % 2 ^ 32), height := hiword (p % 2 ^ 32) },
          surface := { st.surface_config with
            width := loword (p % 2 ^ 32), height := hiword (p % 2 ^ 32) } } } := by
  simp [Window.size_handler, h]

theorem size_handler_fields (w : Window) (p : Nat) :
    (w.size_handler p).hwnd = w.hwnd ∧ (w.size_handler p).device = w.device ∧
    (w.size_handler p).desktop = w.desktop ∧ (w.size_handler p).target = w.target := by
  cases h : w.wgpu_state <;> simp [Window.size_handler, h]

theorem foldl_size_handler_fields (lps : List Nat) :
    ∀ w : Window, ((lps.foldl Window.size_handler w).hwnd = w.hwnd ∧
      (lps.foldl Window.size_handler w).device = w.device ∧
      (lps.foldl Window.size_handler w).desktop = w.desktop ∧
      (lps.foldl Window.size_handler w).target = w.target) := by
  induction lps with
  | nil => intro w; simp
  | cons p rest ih =>
    intro w
    have h1 := size_handler_fields w p
    have h2 := ih (w.size_handler p)
    simp only [List.foldl_cons]
    exact ⟨h2.1.trans h1.1, h2.2.1.trans h1.2.1, h2.2.2.1.trans h1.2.2.1,
      h2.2.2.2.trans h1.2.2.2⟩

theorem foldl_size_handler_last (lps : List Nat) :
    ∀ (l : Nat) (w : Window) (st : SurfaceState), w.wgpu_state = some st →
      ((l :: lps).foldl Window.size_handler w).wgpu_state =
        some { st with
          surface_config := { st.surface_config with
            width := loword (lps.getLastD l % 2 ^ 32),
            height := hiword (lps.getLastD l % 2 ^ 32) },
          surface := { st.surface_config with
            width := loword (lps.getLastD l % 2 ^ 32),
            height := hiword (lps.getLastD l % 2 ^ 32) } } := by
  induction lps with
  | nil =>
    intro l w st h
    simp only [List.foldl_cons, List.foldl_nil, List.getLastD_nil]
    rw [size_handler_of_some w st l h]
  | cons p rest ih =>
    intro l w st h
    have step := size_handler_of_some w st l h
    have h1 : (w.size_handler l).wgpu_state = some { st with
        surface_config := { st.surface_config with
          width := loword (l % 2 ^ 32), height := hiword (l % 2 ^ 32) },
        surface := { st.surface_config with
          width := loword (l % 2 ^ 32), height := hiword (l % 2 ^ 32) } } := by
      rw [step]
    have := ih p (w.size_handler l) _ h1
    rw [List.getLastD_cons, List.foldl_cons]
    exact this


theorem paint_present_window (env : Env) (w : Window) (b : Bool) :
    (Window.paint_present env w b).window = w := by
  unfold Window.paint_present
  cases h : w.wgpu_state with
  | none => rfl
  | some st =>
    by_cases hacq : env.getCurrentTextureOk <;>
      by_cases hv : env.validateRectOk <;>
        simp [SurfaceState.clear, hacq, hv]

theorem paint_present_calledCreate (env : Env) (w : Window) (b : Bool) :
    (Window.paint_present env w b).calledCreate = b := by
  unfold Window.paint_present
  cases h : w.wgpu_state with
  | none => rfl
  | some st =>
    by_cases hacq : env.getCurrentTextureOk <;>
      by_cases hv : env.validateRectOk <;>
        simp [SurfaceState.clear, hacq, hv]

theorem paint_present_status (env : Env) (w : Window) (b : Bool) :
    (Window.paint_present env w b).status = .ok ∨
    (Window.paint_present env w b).status = .error ∨
    (Window.paint_present env w b).status = .panicked .acquireFailed ∨
    ((Window.paint_present env w b).status = .panicked .unwrapNoSurfaceState ∧
      w.wgpu_state = none) := by
  unfold Window.paint_present
  cases h : w.wgpu_state with
  | none => simp
  | some st =>
    by_cases hacq : env.getCurrentTextureOk <;>
      by_cases hv : env.validateRectOk <;>
        simp [SurfaceState.clear, hacq, hv]

theorem surface_new_error_reasons (env : Env) (a b : Nat) (r : PanicReason)
    (h : SurfaceState.new env a b = .error r) :
    r = .surfaceCreateFailed ∨ r = .adapterRequestFailed ∨
    r = .deviceRequestFailed ∨ r = .formatUnsupported ∨ r = .alphaModesEmpty := by
  unfold SurfaceState.new at h
  repeat' split at h
  all_goals simp_all

set_option maxHeartbeats 1000000 in
theorem create_spec (env : Env) (w : Window) :
    ((w.create_device_resources env).boundTargets = [initTargets w] ∨
     (w.create_device_resources env).boundTargets = [initTargets w, 0] ∨
     (w.create_device_resources env).boundTargets = [initTargets w, 0, 1, 0] ∨
     (w.create_device_resources env).boundTargets = [initTargets w, 0, 1, 1]) ∧
    ((w.create_device_resources env).status = .error ∨
     ((w.create_device_resources env).status = .panicked .assertDeviceSome ∧
       env.debugAssertions = true ∧ w.device.isSome = true) ∨
     (∃ r, (w.create_device_resources env).status = .panicked r ∧
       SurfaceState.new env env.clientWidth env.clientHeight = .error r) ∨
     ((w.create_device_resources env).status = .ok ∧
       ∃ st, SurfaceState.new env env.clientWidth env.clientHeight = .ok st ∧
         (w.create_device_resources env).window =
           { w with
               device := some ()
               desktop := some ()
               target := some ()
               wgpu_state := some st })) := by
  delta Window.create_device_resources
  by_cases h1 : (env.debugAssertions && w.device.isSome) = true
  · rw [if_pos h1]
    rcases Bool.and_eq_true _ _ |>.mp h1 with ⟨hd1, hd2⟩
    exact ⟨Or.inl rfl, Or.inr (Or.inl ⟨rfl, hd1, hd2⟩)⟩
  · rw [if_neg h1]
    by_cases h2 : (!env.create_device_3d_ok) = true
    · rw [if_pos h2]
      exact ⟨Or.inl rfl, Or.inl rfl⟩
    · rw [if_neg h2]
      by_cases h3 : (!env.create_device_2d_ok) = true
      · rw [if_pos h3]
        exact ⟨Or.inl rfl, Or.inl rfl⟩
      · rw [if_neg h3]
        by_cases h4 : (!env.dcompositionCreateDevice2Ok) = true
        · rw [if_pos h4]
          exact ⟨Or.inl rfl, Or.inl rfl⟩
        · rw [if_neg h4]
          by_cases h5 : (!env.createTargetForHwndOk) = true
          · rw [if_pos h5]
            exact ⟨Or.inr (Or.inl rfl), Or.inl rfl⟩
          · rw [if_neg h5]
            by_cases h6 : (!env.createRootVisualOk) = true
            · rw [if_pos h6]
              exact ⟨Or.inr (Or.inr (Or.inl rfl)), Or.inl rfl⟩
            · rw [if_neg h6]
              by_cases h7 : (!env.setRootOk) = true
              · rw [if_pos h7]
                exact ⟨Or.inr (Or.inr (Or.inl rfl)), Or.inl rfl⟩
              · rw [if_neg h7]
                by_cases h8 : (!env.createWgpuVisualOk) = true
                · rw [if_pos h8]
                  exact ⟨Or.inr (Or.inr (Or.inr rfl)), Or.inl rfl⟩
                · rw [if_neg h8]
                  by_cases h9 : (!env.addVisualOk) = true
                  · rw [if_pos h9]
                    exact ⟨Or.inr (Or.inr (Or.inr rfl)), Or.inl rfl⟩
                  · rw [if_neg h9]
                    by_cases h10 : (!env.getClientRectOk) = true
                    · rw [if_pos h10]
                      exact ⟨Or.inr (Or.inr (Or.inr rfl)), Or.inl rfl⟩
                    · rw [if_neg h10]
                      split
                      next r heq =>
                        exact ⟨Or.inr (Or.inr (Or.inr rfl)),
                          Or.inr (Or.inr (Or.inl ⟨r, rfl, heq⟩))⟩
                      next st heq =>
                        by_cases h11 : (!env.commitOk) = true
                        · rw [if_pos h11]
                          exact ⟨Or.inr (Or.inr (Or.inr rfl)), Or.inl rfl⟩
                        · rw [if_neg h11]
                          exact ⟨Or.inr (Or.inr (Or.inr rfl)),
                            Or.inr (Or.inr (Or.inr ⟨rfl, st, heq, rfl⟩))⟩

theorem create_panic_reasons (env : Env) (w : Window) (r : PanicReason)
    (h : (w.create_device_resources env).status = .panicked r) :
    (r = .assertDeviceSome ∧ w.device.isSome = true ∧ env.debugAssertions = true) ∨
    SurfaceState.new env env.clientWidth env.clientHeight = .error r := by
  rcases (create_spec env w).2 with h1 | ⟨h1, hd1, hd2⟩ | ⟨r2, h1, h2⟩ | ⟨h1, _⟩
  · rw [h] at h1
    exact PaintStatus.noConfusion h1
  · rw [h] at h1
    have hr := (PaintStatus.panicked.injEq _ _).mp h1
    exact Or.inl ⟨hr, hd2, hd1⟩
  · rw [h] at h1
    have hr := (PaintStatus.panicked.injEq _ _).mp h1
    rw [← hr] at h2
    exact Or.inr h2
  · rw [h] at h1
    exact PaintStatus.noConfusion h1

theorem create_device_none_no_assert (env : Env) (w : Window)
    (h : w.device = none) :
    (w.create_device_resources env).status ≠ .panicked .assertDeviceSome := by
  intro hc
  rcases create_panic_reasons env w _ hc with ⟨_, h2, _⟩ | h2
  · rw [h] at h2
    simp at h2
  · rcases surface_new_error_reasons env _ _ _ h2 with h3 | h3 | h3 | h3 | h3 <;>
      exact PanicReason.noConfusion h3

theorem create_no_unwrap_panic (env : Env) (w : Window) :
    (w.create_device_resources env).status ≠ .panicked .unwrapNoSurfaceState := by
  intro hc
  rcases create_panic_reasons env w _ hc with ⟨h1, _, _⟩ | h2
  · exact PanicReason.noConfusion h1
  · rcases surface_new_error_reasons env _ _ _ h2 with h3 | h3 | h3 | h3 | h3 <;>
      exact PanicReason.noConfusion h3

theorem create_ok_surface_some (env : Env) (w : Window)
    (h : (w.create_device_resources env).status = .ok) :
    (w.create_device_resources env).window.wgpu_state.isSome = true := by
  rcases (create_spec env w).2 with h1 | ⟨h1, _, _⟩ | ⟨r2, h1, _⟩ | ⟨_, st, _, h2⟩
  · rw [h] at h1
    exact PaintStatus.noConfusion h1
  · rw [h] at h1
    exact PaintStatus.noConfusion h1
  · rw [h] at h1
    exact PaintStatus.noConfusion h1
  · rw [h2]
    rfl

theorem paint_handler_calledCreate_iff (env : Env) (w : Window) :
    (w.paint_handler env).calledCreate = true ↔ w.device = none := by
  unfold Window.paint_handler
  cases h : w.device with
  | none =>
    simp only [h]
    cases hs : (w.create_device_resources env).status <;>
      simp [hs, paint_present_calledCreate]
  | some d =>
    simp only [h]
    by_cases hl : env.getDeviceRemovedReasonOk <;>
      simp [hl, paint_present_calledCreate]

theorem message_paint_error (env : Env) (w : Window)
    (h : (w.paint_handler env).status = .error) :
    (Window.message_handler env w .WM_PAINT).window =
      { (w.paint_handler env).window with device := none } ∧
    (Window.message_handler env w .WM_PAINT).outcome = .lresult 0 := by
  simp only [Window.message_handler]
  rw [h]
  exact ⟨rfl, rfl⟩

theorem paint_present_presentedAt (env : Env) (w : Window) (st : SurfaceState)
    (b : Bool) (hst : w.wgpu_state = some st)
    (hacq : env.getCurrentTextureOk = true) :
    (Window.paint_present env w b).presentedAt =
      some (st.surface.width, st.surface.height) := by
  unfold Window.paint_present
  rw [hst]
  by_cases hv : env.validateRectOk <;> simp [SurfaceState.clear, hacq, hv]

theorem paint_present_no_unwrap (env : Env) (w : Window) (b : Bool)
    (h : w.wgpu_state.isSome = true) :
    (Window.paint_present env w b).status ≠ .panicked .unwrapNoSurfaceState := by
  intro hc
  rcases paint_present_status env w b with h1 | h1 | h1 | ⟨h1, h2⟩
  · rw [hc] at h1
    exact PaintStatus.noConfusion h1
  · rw [hc] at h1
    exact PaintStatus.noConfusion h1
  · rw [hc] at h1
    have := (PaintStatus.panicked.injEq _ _).mp h1
    exact PanicReason.noConfusion this
  · rw [h2] at h
    exact Bool.noConfusion h

theorem paint_spec (env : Env) (w : Window) :
    (∃ d, w.device = some d ∧ env.getDeviceRemovedReasonOk = false ∧
      w.paint_handler env =
        { window := w, status := .error, calledCreate := false,
          presentedAt := none }) ∨
    (∃ d, w.device = some d ∧ env.getDeviceRemovedReasonOk = true ∧
      w.paint_handler env = Window.paint_present env w false) ∨
    (w.device = none ∧ (w.create_device_resources env).status = .ok ∧
      w.paint_handler env =
        Window.paint_present env (w.create_device_resources env).window true) ∨
    (w.device = none ∧ (w.create_device_resources env).status ≠ .ok ∧
      w.paint_handler env =
        { window := (w.create_device_resources env).window,
          status := (w.create_device_resources env).status,
          calledCreate := true, presentedAt := none }) := by
  unfold Window.paint_handler
  cases hd : w.device with
  | some d =>
    by_cases hl : env.getDeviceRemovedReasonOk
    · refine Or.inr (Or.inl ⟨d, rfl, hl, ?_⟩)
      simp [hl]
    · refine Or.inl ⟨d, rfl, by simpa using hl, ?_⟩
      simp [hl]
  | none =>
    cases hs : (w.create_device_resources env).status with
    | ok =>
      refine Or.inr (Or.inr (Or.inl ⟨rfl, rfl, ?_⟩))
      simp [hs]
    | error =>
      refine Or.inr (Or.inr (Or.inr ⟨rfl, by simp, ?_⟩))
      simp [hs]
    | panicked r =>
      refine Or.inr (Or.inr (Or.inr ⟨rfl, by simp, ?_⟩))
      simp [hs]

theorem find_beq_self (l : List TextureFormat) (x : TextureFormat)
    (h : x ∈ l) : l.find? (fun d => d == x) = some x := by
  induction l with
  | nil => cases h
  | cons a as ih =>
    by_cases hax : a = x
    · subst hax
      simp [List.find?]
    · rcases List.mem_cons.mp h with h2 | h2
      · exact absurd h2.symm hax
      · have hb : (a == x) = false := by
          simpa using hax
        simp [List.find?, hb, ih h2]

theorem find_beq_none (l : List TextureFormat) (x : TextureFormat)
    (h : x ∉ l) : l.find? (fun d => d == x) = none := by
  rw [List.find?_eq_none]
  intro a ha
  simp only [beq_iff_eq]
  intro hax
  exact h (hax ▸ ha)

theorem paint_present_no_assert (env : Env) (w : Window) (b : Bool) :
    (Window.paint_present env w b).status ≠ .panicked .assertDeviceSome := by
  intro hc
  rcases paint_present_status env w b with h1 | h1 | h1 | ⟨h1, _⟩ <;> rw [hc] at h1
  · exact PaintStatus.noConfusion h1
  · exact PaintStatus.noConfusion h1
  · exact PanicReason.noConfusion ((PaintStatus.panicked.injEq _ _).mp h1)
  · exact PanicReason.noConfusion ((PaintStatus.panicked.injEq _ _).mp h1)

/-! ## Claim theorems -/

/-- Claim C10: for every 32-bit packed size value `x`, `loword` extracts
`x mod 2 ^ 16`, `hiword` extracts `(x div 2 ^ 16) mod 2 ^ 16`, the two
recombine to `x`, and these are exactly the width and height written into the
surface configuration by the size handler. -/
theorem C10_loword_hiword_extract_packed_size (x : Nat) (w : Window)
    (st : SurfaceState) (hx : x < 2 ^ 32) (hst : w.wgpu_state = some st) :
    loword x = x % 2 ^ 16 ∧
    hiword x = (x / 2 ^ 16) % 2 ^ 16 ∧
    loword x + 2 ^ 16 * hiword x = x ∧
    ((w.size_handler x).wgpu_state.map fun s =>
        (s.surface_config.width, s.surface_config.height)) =
      some (x % 2 ^ 16, (x / 2 ^ 16) % 2 ^ 16) := by
  have hlo := loword_eq_mod x
  have hhi := hiword_eq_div_mod x
  have hp16 : (2 : Nat) ^ 16 = 65536 := by norm_num
  have hp32 : (2 : Nat) ^ 32 = 4294967296 := by norm_num
  refine ⟨hlo, hhi, ?_, ?_⟩
  · rw [hlo, hhi, hp16]
    rw [hp32] at hx
    omega
  · rw [size_handler_of_some w st x hst]
    have hm2 : x % 4294967296 = x := by
      rw [← hp32]
      exact Nat.mod_eq_of_lt hx
    simp [hm2, hlo, hhi, hp16]

/-- Witness for C10 at the packed size 800 + 600 * 2 ^ 16 on a built
window. -/
theorem C10_witness :
    (39322400 : Nat) < 2 ^ 32 ∧ readyWindow.wgpu_state = some sampleState ∧
    (loword 39322400 = 39322400 % 2 ^ 16 ∧
     hiword 39322400 = (39322400 / 2 ^ 16) % 2 ^ 16 ∧
     loword 39322400 + 2 ^ 16 * hiword 39322400 = 39322400 ∧
     ((readyWindow.size_handler 39322400).wgpu_state.map fun s =>
         (s.surface_config.width, s.surface_config.height)) =
       some (39322400 % 2 ^ 16, (39322400 / 2 ^ 16) % 2 ^ 16)) :=
  ⟨by norm_num, rfl,
    C10_loword_hiword_extract_packed_size 39322400 readyWindow sampleState
      (by norm_num) rfl⟩

/-- Claim C5: a sequence of resize events updates only the surface
configuration's width and height (to the most recently delivered packed
size) and reapplies the configuration to the surface in place; a resize with
no surface state is a no-op, and no resize ever modifies the window handle,
device stack, desktop device or composition target fields. -/
theorem C5_resize_updates_only_size (w wn : Window) (l p : Nat)
    (lps : List Nat) (st : SurfaceState)
    (hst : w.wgpu_state = some st) (hn : wn.wgpu_state = none) :
    wn.size_handler p = wn ∧
    ((l :: lps).foldl Window.size_handler w).hwnd = w.hwnd ∧
    ((l :: lps).foldl Window.size_handler w).device = w.device ∧
    ((l :: lps).foldl Window.size_handler w).desktop = w.desktop ∧
    ((l :: lps).foldl Window.size_handler w).target = w.target ∧
    ((l :: lps).foldl Window.size_handler w).wgpu_state =
      some { st with
        surface_config := { st.surface_config with
          width := loword (lps.getLastD l % 2 ^ 32),
          height := hiword (lps.getLastD l % 2 ^ 32) },
        surface := { st.surface_config with
          width := loword (lps.getLastD l % 2 ^ 32),
          height := hiword (lps.getLastD l % 2 ^ 32) } } := by
  have hf := foldl_size_handler_fields (l :: lps) w
  exact ⟨size_handler_of_none wn p hn, hf.1, hf.2.1, hf.2.2.1, hf.2.2.2,
    foldl_size_handler_last lps l w st hst⟩

/-- Witness for C5: two resizes of a built window, the last to
800 by 600, and a no-op resize of the fresh window. -/
theorem C5_witness :
    readyWindow.wgpu_state = some sampleState ∧
    Window.new.wgpu_state = none ∧
    (Window.new.size_handler 3 = Window.new ∧
     ([7, 39322400].foldl Window.size_handler readyWindow).hwnd = readyWindow.hwnd ∧
     ([7, 39322400].foldl Window.size_handler readyWindow).device = readyWindow.device ∧
     ([7, 39322400].foldl Window.size_handler readyWindow).desktop = readyWindow.desktop ∧
     ([7, 39322400].foldl Window.size_handler readyWindow).target = readyWindow.target ∧
     ([7, 39322400].foldl Window.size_handler readyWindow).wgpu_state =
       some { sampleState with
         surface_config := { sampleState.surface_config with
           width := loword ([39322400].getLastD 7 % 2 ^ 32),
           height := hiword ([39322400].getLastD 7 % 2 ^ 32) },
         surface := { sampleState.surface_config with
           width := loword ([39322400].getLastD 7 % 2 ^ 32),
           height := hiword ([39322400].getLastD 7 % 2 ^ 32) } }) :=
  ⟨rfl, rfl,
    C5_resize_updates_only_size readyWindow Window.new 7 3 [39322400]
      sampleState rfl rfl⟩

/-- Claim C4: at most one composition target is bound to the window handle at
every point of `create_device_resources`: every snapshot of the binding count
is at most 1, and the trace always starts with the entry count followed
(on any path that proceeds) by the release to 0 strictly before the creation
that raises it back to 1. -/
theorem C4_single_target_binding (env : Env) (w : Window) :
    (∀ n ∈ (w.create_device_resources env).boundTargets, n ≤ 1) ∧
    ((w.create_device_resources env).boundTargets = [initTargets w] ∨
     (w.create_device_resources env).boundTargets = [initTargets w, 0] ∨
     (w.create_device_resources env).boundTargets = [initTargets w, 0, 1, 0] ∨
     (w.create_device_resources env).boundTargets = [initTargets w, 0, 1, 1]) := by
  have hv : initTargets w = 0 ∨ initTargets w = 1 := by
    unfold initTargets
    split
    · exact Or.inr rfl
    · exact Or.inl rfl
  refine ⟨?_, (create_spec env w).1⟩
  rcases (create_spec env w).1 with h | h | h | h <;>
    rw [h] <;> rcases hv with hv | hv <;> rw [hv] <;> decide

/-- Counterexample to C2 as stated: with a healthy device stack and a failing
texture acquire, the paint path fails, but the failure is a Rust panic from
`expect("failed to acquire texture")` that is not caught at the dispatch
boundary: the dispatch does not return an acknowledgment and the device-stack
reference is not cleared. -/
theorem C2_counterexample :
    (Window.message_handler acquireFailEnv readyWindow .WM_PAINT).outcome =
      .panicked .acquireFailed ∧
    (Window.message_handler acquireFailEnv readyWindow .WM_PAINT).window.device =
      some () := by decide

/-- Claim C2 (amended): every failure surfaced as a `Result` error in the
paint path (the liveness check, the native device-stack and compositor
resource creation, and rectangle validation) is caught at the paint-dispatch
boundary: the device-stack reference is set to `none` and the message is
acknowledged with `LRESULT(0)`.  Failures inside `SurfaceState::new` and the
render/present path are panics and terminate the process instead. -/
theorem C2_error_failures_caught (env : Env) (w : Window)
    (h : (w.paint_handler env).status = .error) :
    (Window.message_handler env w .WM_PAINT).window.device = none ∧
    (Window.message_handler env w .WM_PAINT).outcome = .lresult 0 := by
  have hm := message_paint_error env w h
  refine ⟨?_, hm.2⟩
  rw [hm.1]

/-- Witness for the amended C2: a failing liveness query on a built window is
caught, clears the device reference, and still acknowledges the message. -/
theorem C2_error_failures_caught_witness :
    (readyWindow.paint_handler envFail).status = .error ∧
    ((Window.message_handler envFail readyWindow .WM_PAINT).window.device = none ∧
     (Window.message_handler envFail readyWindow .WM_PAINT).outcome = .lresult 0) :=
  ⟨by decide, C2_error_failures_caught envFail readyWindow (by decide)⟩

/-- Claim C3, evaluated at the failing input: a built 400 by 300 window whose
device is healthy but whose `get_current_texture` fails.  The code panics
with the acquire `expect` instead of propagating an error to the paint
caller; the dispatch aborts in a panic and the device stack is left in
place rather than cleared. -/
theorem C3_acquire_failure_panics :
    (resizedWindow.paint_handler acquireFailEnv).status =
      .panicked .acquireFailed ∧
    (Window.message_handler acquireFailEnv resizedWindow .WM_PAINT).outcome.isPanic =
      true ∧
    (Window.message_handler acquireFailEnv resizedWindow .WM_PAINT).window.device ≠
      none := by decide

/-- Counterexample to C8 as stated: after a resize event delivering zero
width and height, the next paint still renders and presents a frame at
0 by 0 — the render is neither skipped nor clamped to at least 1 by 1. -/
theorem C8_counterexample :
    (zeroWindow.paint_handler allOkEnv).presentedAt = some (0, 0) ∧
    (zeroWindow.paint_handler allOkEnv).status = .ok := by decide

/-- Claim C8 (amended): the surface may be reconfigured at a zero size, and
the following paint neither skips the frame nor clamps its dimensions:
whenever the liveness check and the texture acquire succeed, the frame is
rendered at exactly the dimensions stored in the surface configuration,
zero included. -/
theorem C8_render_uses_stored_dimensions (env : Env) (w : Window)
    (st : SurfaceState) (d : Unit)
    (hdev : w.device = some d) (hst : w.wgpu_state = some st)
    (hlive : env.getDeviceRemovedReasonOk = true)
    (hacq : env.getCurrentTextureOk = true) :
    (w.paint_handler env).presentedAt =
      some (st.surface.width, st.surface.height) := by
  rcases paint_spec env w with ⟨d2, h1, h2, h3⟩ | ⟨d2, h1, h2, h3⟩ |
    ⟨h1, _, _⟩ | ⟨h1, _, _⟩
  · rw [hlive] at h2
    exact Bool.noConfusion h2
  · rw [h3]
    exact paint_present_presentedAt env w st false hst hacq
  · rw [hdev] at h1
    exact Option.noConfusion h1
  · rw [hdev] at h1
    exact Option.noConfusion h1

/-- Witness for the amended C8 at the zero-size window: the frame is rendered
at 0 by 0. -/
theorem C8_render_uses_stored_dimensions_witness :
    zeroWindow.device = some () ∧
    zeroWindow.wgpu_state = some zeroState ∧
    allOkEnv.getDeviceRemovedReasonOk = true ∧
    allOkEnv.getCurrentTextureOk = true ∧
    (zeroWindow.paint_handler allOkEnv).presentedAt =
      some (zeroState.surface.width, zeroState.surface.height) :=
  ⟨by decide, by decide, rfl, rfl,
    C8_render_uses_stored_dimensions allOkEnv zeroWindow zeroState ()
      (by decide) (by decide) rfl rfl⟩

/-- Claim C1: a paint during which the device-liveness query fails clears the
device-stack reference while leaving the surface state unchanged; the
immediately following paint invokes `create_device_resources` (a full rebuild
attempt), and if that attempt fails with an error the controller is again
left without a device stack — repeated failures never leave a device stack
present. -/
theorem C1_liveness_failure_recovery (env env2 : Env) (w : Window)
    (hdev : w.device.isSome = true)
    (hfail : env.getDeviceRemovedReasonOk = false) :
    (Window.message_handler env w .WM_PAINT).window.device = none ∧
    (Window.message_handler env w .WM_PAINT).window.wgpu_state = w.wgpu_state ∧
    (Window.paint_handler env2
      (Window.message_handler env w .WM_PAINT).window).calledCreate = true ∧
    ((Window.paint_handler env2
        (Window.message_handler env w .WM_PAINT).window).status = .error →
      (Window.message_handler env2
        (Window.message_handler env w .WM_PAINT).window .WM_PAINT).window.device =
        none) := by
  obtain ⟨d, hd⟩ := Option.isSome_iff_exists.mp hdev
  have hp : w.paint_handler env =
      { window := w, status := .error, calledCreate := false,
        presentedAt := none } := by
    rcases paint_spec env w with ⟨d2, h1, h2, h3⟩ | ⟨d2, h1, h2, h3⟩ |
      ⟨h1, _, _⟩ | ⟨h1, _, _⟩
    · exact h3
    · rw [hfail] at h2
      exact Bool.noConfusion h2
    · rw [hd] at h1
      exact Option.noConfusion h1
    · rw [hd] at h1
      exact Option.noConfusion h1
  have hm : Window.message_handler env w .WM_PAINT =
      { window := { w with device := none }, outcome := .lresult 0 } := by
    simp only [Window.message_handler, hp]
  rw [hm]
  refine ⟨rfl, rfl, ?_, ?_⟩
  · exact (paint_handler_calledCreate_iff env2 _).mpr rfl
  · intro herr
    rw [(message_paint_error env2 _ herr).1]

/-- Witness for C1: liveness failure injected on a built window, followed by
a second paint in an environment in which the rebuild fails at 3D device
creation. -/
theorem C1_witness :
    readyWindow.device.isSome = true ∧
    envFail.getDeviceRemovedReasonOk = false ∧
    ((Window.message_handler envFail readyWindow .WM_PAINT).window.device = none ∧
     (Window.message_handler envFail readyWindow .WM_PAINT).window.wgpu_state =
       readyWindow.wgpu_state ∧
     (Window.paint_handler { allOkEnv with create_device_3d_ok := false }
       (Window.message_handler envFail readyWindow .WM_PAINT).window).calledCreate =
       true ∧
     ((Window.paint_handler { allOkEnv with create_device_3d_ok := false }
         (Window.message_handler envFail readyWindow .WM_PAINT).window).status =
           .error →
       (Window.message_handler { allOkEnv with create_device_3d_ok := false }
         (Window.message_handler envFail readyWindow .WM_PAINT).window
         .WM_PAINT).window.device = none)) :=
  ⟨rfl, rfl,
    C1_liveness_failure_recovery envFail
      { allOkEnv with create_device_3d_ok := false } readyWindow rfl rfl⟩

/-- Claim C6: surface creation selects exactly the sRGB BGRA 8-bit format
when the reported capabilities contain it and fails (a panic, with no silent
fallback to another format) when they do not; on success the surface is
configured with render-attachment usage, the given width and height,
vsync-locked presentation, zero desired frame latency, and the first reported
alpha mode. -/
theorem C6_format_selection (env : Env) (width height : Nat)
    (a : CompositeAlphaMode) (rest : List CompositeAlphaMode)
    (hs : env.createSurfaceOk = true) (ha : env.requestAdapterOk = true)
    (hd : env.requestDeviceOk = true)
    (hal : env.caps.alpha_modes = a :: rest) :
    (TextureFormat.Bgra8UnormSrgb ∈ env.caps.formats →
      SurfaceState.new env width height =
        .ok { surface_config :=
                { usage := RENDER_ATTACHMENT
                  format := .Bgra8UnormSrgb
                  width := width
                  height := height
                  present_mode := .AutoVsync
                  desired_maximum_frame_latency := 0
                  alpha_mode := a
                  view_formats := [] }
              format := .Bgra8UnormSrgb
              surface :=
                { usage := RENDER_ATTACHMENT
                  format := .Bgra8UnormSrgb
                  width := width
                  height := height
                  present_mode := .AutoVsync
                  desired_maximum_frame_latency := 0
                  alpha_mode := a
                  view_formats := [] } }) ∧
    (TextureFormat.Bgra8UnormSrgb ∉ env.caps.formats →
      SurfaceState.new env width height = .error .formatUnsupported) := by
  constructor
  · intro hmem
    unfold SurfaceState.new
    simp [hs, ha, hd, find_beq_self _ _ hmem, hal]
  · intro hmem
    unfold SurfaceState.new
    simp [hs, ha, hd, find_beq_none _ _ hmem]

/-- Witness for C6 in the all-successful environment, whose capabilities
report the sRGB BGRA format and two alpha modes. -/
theorem C6_witness :
    allOkEnv.createSurfaceOk = true ∧
    allOkEnv.requestAdapterOk = true ∧
    allOkEnv.requestDeviceOk = true ∧
    allOkEnv.caps.alpha_modes = .Auto :: [.Opaq] ∧
    ((TextureFormat.Bgra8UnormSrgb ∈ allOkEnv.caps.formats →
      SurfaceState.new allOkEnv 800 600 =
        .ok { surface_config :=
                { usage := RENDER_ATTACHMENT
                  format := .Bgra8UnormSrgb
                  width := 800
                  height := 600
                  present_mode := .AutoVsync
                  desired_maximum_frame_latency := 0
                  alpha_mode := .Auto
                  view_formats := [] }
              format := .Bgra8UnormSrgb
              surface :=
                { usage := RENDER_ATTACHMENT
                  format := .Bgra8UnormSrgb
                  width := 800
                  height := 600
                  present_mode := .AutoVsync
                  desired_maximum_frame_latency := 0
                  alpha_mode := .Auto
                  view_formats := [] } }) ∧
     (TextureFormat.Bgra8UnormSrgb ∉ allOkEnv.caps.formats →
      SurfaceState.new allOkEnv 800 600 = .error .formatUnsupported)) :=
  ⟨rfl, rfl, rfl, rfl,
    C6_format_selection allOkEnv 800 600 .Auto [.Opaq] rfl rfl rfl rfl⟩

/-- Claim C7: invoking `create_device_resources` while a device stack is
present is rejected by the `debug_assert!` precondition check in debug builds
(an aborting panic, never a silent double-create), and the paint handler only
ever invokes it when the device stack is absent, so in the paint path the
assertion never fires. -/
theorem C7_create_precondition (env env2 : Env) (w w2 : Window)
    (hdbg : env.debugAssertions = true) (hdev : w.device.isSome = true) :
    (w.create_device_resources env).status = .panicked .assertDeviceSome ∧
    ((w2.paint_handler env2).calledCreate = true → w2.device = none) ∧
    (w2.paint_handler env2).status ≠ .panicked .assertDeviceSome := by
  have hc : (env.debugAssertions && w.device.isSome) = true := by
    rw [hdbg, hdev]
    rfl
  refine ⟨?_, (paint_handler_calledCreate_iff env2 w2).mp, ?_⟩
  · delta Window.create_device_resources
    rw [if_pos hc]
  · intro hcontra
    rcases paint_spec env2 w2 with ⟨d2, h1, h2, h3⟩ | ⟨d2, h1, h2, h3⟩ |
      ⟨h1, h2, h3⟩ | ⟨h1, h2, h3⟩
    · rw [h3] at hcontra
      exact PaintStatus.noConfusion hcontra
    · rw [h3] at hcontra
      exact paint_present_no_assert env2 w2 false hcontra
    · rw [h3] at hcontra
      exact paint_present_no_assert env2 _ true hcontra
    · rw [h3] at hcontra
      exact create_device_none_no_assert env2 w2 h1 hcontra

/-- Witness for C7: a direct call on the built window in a debug environment
aborts on the precondition; the paint handler on the fresh window never
triggers it. -/
theorem C7_witness :
    allOkEnv.debugAssertions = true ∧
    readyWindow.device.isSome = true ∧
    ((readyWindow.create_device_resources allOkEnv).status =
        .panicked .assertDeviceSome ∧
     ((Window.new.paint_handler allOkEnv).calledCreate = true →
        Window.new.device = none) ∧
     (Window.new.paint_handler allOkEnv).status ≠ .panicked .assertDeviceSome) :=
  ⟨rfl, rfl, C7_create_precondition allOkEnv allOkEnv readyWindow Window.new rfl rfl⟩

/-- Claim C9: the invariant "device stack present implies surface state
present" holds of the initial window and is preserved by every dispatched
message that returns; consequently the unconditional surface-state `unwrap`
in the paint path never panics. -/
theorem C9_unwrap_never_panics (env : Env) (w : Window) (msg : Msg)
    (hInv : deviceImpliesSurface w) :
    deviceImpliesSurface Window.new ∧
    ((Window.message_handler env w msg).outcome.isPanic = false →
      deviceImpliesSurface (Window.message_handler env w msg).window) ∧
    (w.paint_handler env).status ≠ .panicked .unwrapNoSurfaceState := by
  have hno : (w.paint_handler env).status ≠ .panicked .unwrapNoSurfaceState := by
    rcases paint_spec env w with ⟨d, h1, h2, h3⟩ | ⟨d, h1, h2, h3⟩ |
      ⟨h1, h2, h3⟩ | ⟨h1, h2, h3⟩
    · rw [h3]
      intro hcontra
      exact PaintStatus.noConfusion hcontra
    · rw [h3]
      refine paint_present_no_unwrap env w false (hInv ?_)
      rw [h1]
      rfl
    · rw [h3]
      exact paint_present_no_unwrap env _ true (create_ok_surface_some env w h2)
    · rw [h3]
      exact create_no_unwrap_panic env w
  refine ⟨fun h => Bool.noConfusion h, ?_, hno⟩
  intro hnp
  cases msg with
  | WM_PAINT =>
    cases hs : (w.paint_handler env).status with
    | ok =>
      have hm : (Window.message_handler env w .WM_PAINT).window =
          (w.paint_handler env).window := by
        simp only [Window.message_handler, hs]
      rw [hm]
      rcases paint_spec env w with ⟨d, h1, h2, h3⟩ | ⟨d, h1, h2, h3⟩ |
        ⟨h1, h2, h3⟩ | ⟨h1, h2, h3⟩
      · rw [h3] at hs
        exact PaintStatus.noConfusion hs
      · rw [h3, paint_present_window]
        exact hInv
      · rw [h3, paint_present_window]
        intro _
        exact create_ok_surface_some env w h2
      · rw [h3] at hs
        exact absurd hs h2
    | error =>
      rw [(message_paint_error env w hs).1]
      intro hcontra
      exact Bool.noConfusion hcontra
    | panicked r =>
      have ho : (Window.message_handler env w .WM_PAINT).outcome = .panicked r := by
        simp only [Window.message_handler, hs]
      rw [ho] at hnp
      exact Bool.noConfusion hnp
  | WM_SIZE lp =>
    have hm : (Window.message_handler env w (.WM_SIZE lp)).window =
        w.size_handler lp := rfl
    rw [hm]
    intro hdv
    have hflds := size_handler_fields w lp
    rw [hflds.2.1] at hdv
    have hws := hInv hdv
    cases hw : w.wgpu_state with
    | none =>
      rw [hw] at hws
      exact Bool.noConfusion hws
    | some st =>
      rw [size_handler_of_some w st lp hw]
      rfl
  | WM_DESTROY => exact hInv
  | otherMsg m => exact hInv

/-- Witness for C9: the invariant and panic-freedom at the built window under
a paint message in the all-successful environment. -/
theorem C9_witness :
    deviceImpliesSurface readyWindow ∧
    (deviceImpliesSurface Window.new ∧
     ((Window.message_handler allOkEnv readyWindow .WM_PAINT).outcome.isPanic =
         false →
       deviceImpliesSurface
         (Window.message_handler allOkEnv readyWindow .WM_PAINT).window) ∧
     (readyWindow.paint_handler allOkEnv).status ≠
       .panicked .unwrapNoSurfaceState) :=
  ⟨fun _ => rfl, C9_unwrap_never_panics allOkEnv readyWindow .WM_PAINT (fun _ => rfl)⟩

end WgpuDcomp